import Mathlib

/-
Verification of the actix data receiver (src/main.rs) against its
natural-language specification.

The development shallowly embeds the request handlers `create_data` and
`ping`, the CLI/log-level selection of `actix_main`, and the behaviour of
the storage engine (SQLite, reached through rusqlite) that the handlers
depend on.  Stateful code becomes explicit state passing over a model of
the on-disk stores; `.unwrap()` on an `Err` becomes a `panicked` outcome.
-/

set_option maxRecDepth 4000

/-! ## Association lists (used to model maps: path → store, name → table) -/

def lookupA {α : Type} : List (String × α) → String → Option α
  | [], _ => none
  | (k, v) :: rest, key => if k = key then some v else lookupA rest key

def insertA {α : Type} : List (String × α) → String → α → List (String × α)
  | [], key, v => [(key, v)]
  | (k, w) :: rest, key, v =>
    if k = key then (k, v) :: rest else (k, w) :: insertA rest key v

theorem lookupA_insertA_self {α : Type} (l : List (String × α)) (k : String) (v : α) :
    lookupA (insertA l k v) k = some v := by
  induction l with
  | nil => simp [insertA, lookupA]
  | cons hd tl ih =>
    obtain ⟨k0, v0⟩ := hd
    by_cases h : k0 = k
    · simp [insertA, lookupA, h]
    · simp [insertA, lookupA, h, ih]

/-! ## Bytes and UTF-8 decoding

Model of Rust `str::from_utf8` (src/main.rs line 90): bytes are `Nat`s,
decoding follows RFC 3629 exactly — continuation bytes `0x80..0xBF`,
no overlong encodings (2-byte lead starts at `0xC2`, `0xE0` requires a
second byte in `0xA0..0xBF`, `0xF0` requires `0x90..0xBF`), surrogates
excluded (`0xED` caps its second byte at `0x9F`), and the code-point
range capped at `U+10FFFF` (`0xF4` caps its second byte at `0x8F`). -/

def isCont (b : Nat) : Bool := 0x80 ≤ b && b ≤ 0xBF

def from_utf8 : List Nat → Option (List Char)
  | [] => some []
  | b :: rest =>
    if b ≤ 0x7F then
      (from_utf8 rest).map (fun cs => Char.ofNat b :: cs)
    else if 0xC2 ≤ b && b ≤ 0xDF then
      match rest with
      | b1 :: rest1 =>
        if isCont b1 then
          (from_utf8 rest1).map (fun cs =>
            Char.ofNat ((b - 0xC0) * 0x40 + (b1 - 0x80)) :: cs)
        else none
      | [] => none
    else if b = 0xE0 then
      match rest with
      | b1 :: b2 :: rest2 =>
        if (0xA0 ≤ b1 && b1 ≤ 0xBF) && isCont b2 then
          (from_utf8 rest2).map (fun cs =>
            Char.ofNat ((b - 0xE0) * 0x1000 + (b1 - 0x80) * 0x40 + (b2 - 0x80)) :: cs)
        else none
      | _ => none
    else if (0xE1 ≤ b && b ≤ 0xEC) || (b = 0xEE || b = 0xEF) then
      match rest with
      | b1 :: b2 :: rest2 =>
        if isCont b1 && isCont b2 then
          (from_utf8 rest2).map (fun cs =>
            Char.ofNat ((b - 0xE0) * 0x1000 + (b1 - 0x80) * 0x40 + (b2 - 0x80)) :: cs)
        else none
      | _ => none
    else if b = 0xED then
      match rest with
      | b1 :: b2 :: rest2 =>
        if (0x80 ≤ b1 && b1 ≤ 0x9F) && isCont b2 then
          (from_utf8 rest2).map (fun cs =>
            Char.ofNat ((b - 0xE0) * 0x1000 + (b1 - 0x80) * 0x40 + (b2 - 0x80)) :: cs)
        else none
      | _ => none
    else if b = 0xF0 then
      match rest with
      | b1 :: b2 :: b3 :: rest3 =>
        if ((0x90 ≤ b1 && b1 ≤ 0xBF) && isCont b2) && isCont b3 then
          (from_utf8 rest3).map (fun cs =>
            Char.ofNat ((b - 0xF0) * 0x40000 + (b1 - 0x80) * 0x1000
              + (b2 - 0x80) * 0x40 + (b3 - 0x80)) :: cs)
        else none
      | _ => none
    else if 0xF1 ≤ b && b ≤ 0xF3 then
      match rest with
      | b1 :: b2 :: b3 :: rest3 =>
        if (isCont b1 && isCont b2) && isCont b3 then
          (from_utf8 rest3).map (fun cs =>
            Char.ofNat ((b - 0xF0) * 0x40000 + (b1 - 0x80) * 0x1000
              + (b2 - 0x80) * 0x40 + (b3 - 0x80)) :: cs)
        else none
      | _ => none
    else if b = 0xF4 then
      match rest with
      | b1 :: b2 :: b3 :: rest3 =>
        if ((0x80 ≤ b1 && b1 ≤ 0x8F) && isCont b2) && isCont b3 then
          (from_utf8 rest3).map (fun cs =>
            Char.ofNat ((b - 0xF0) * 0x40000 + (b1 - 0x80) * 0x1000
              + (b2 - 0x80) * 0x40 + (b3 - 0x80)) :: cs)
        else none
      | _ => none
    else none

/-- Encode an ASCII string as request-body bytes (used for concrete runs). -/
def asciiBytes (s : String) : List Nat := s.toList.map Char.toNat

example : from_utf8 (asciiBytes "ab") = some [Char.ofNat 97, Char.ofNat 98] := by decide
example : from_utf8 [0xFF] = none := by decide
example : from_utf8 [0xC3, 0xA9] = some [Char.ofNat 0xE9] := by decide
example : from_utf8 [0xC0, 0x80] = none := by decide
example : from_utf8 [0xED, 0xA0, 0x80] = none := by decide

/-! ## The storage engine's JSON validity check

Model of SQLite's `json(...)` SQL function, which `create_data` applies
to the payload inside the INSERT statement (src/main.rs line 105).
SQLite's JSON functions parse JSON5: beyond RFC 8259 JSON they accept
single-quoted strings, unquoted ECMAScript identifier keys, trailing
commas, comments, hexadecimal numbers, `Infinity`/`NaN`, explicit `+`
signs, and leading/trailing decimal points.  The repository's own test
`test_create_data` (src/main.rs lines 265-275) sends the single-quoted
payload and asserts `201 Created`, confirming the bundled engine accepts
JSON5 text.  The parser below is fuel-based; `sqlite_json_ok` seeds the
fuel with a bound generous enough for any input of the given length. -/

def quoteD : Char := Char.ofNat 34
def quoteS : Char := Char.ofNat 39
def lbrace : Char := Char.ofNat 123
def rbrace : Char := Char.ofNat 125
def backslashC : Char := Char.ofNat 92

def isJson5Ws (c : Char) : Bool :=
  c.toNat = 32 || c.toNat = 9 || c.toNat = 10 || c.toNat = 13 ||
  c.toNat = 11 || c.toNat = 12 || c.toNat = 0xa0 || c.toNat = 0xfeff ||
  c.toNat = 0x2028 || c.toNat = 0x2029

/-- Drop the remainder of a `//` comment, leaving the line terminator. -/
def dropLine : List Char → List Char
  | [] => []
  | c :: rest =>
    if c.toNat = 10 || c.toNat = 13 then c :: rest else dropLine rest

/-- Drop a `/* ... */` block comment body; `none` if unterminated. -/
def dropBlock : Nat → List Char → Option (List Char)
  | 0, _ => none
  | _, [] => none
  | fuel + 1, c :: rest =>
    match rest with
    | c2 :: rest2 =>
      if c.toNat = 42 && c2.toNat = 47 then some rest2
      else dropBlock fuel rest
    | [] => none

/-- Skip JSON5 whitespace and comments. -/
def skipWsC : Nat → List Char → List Char
  | 0, l => l
  | fuel + 1, l =>
    match l with
    | [] => []
    | c :: rest =>
      if isJson5Ws c then skipWsC fuel rest
      else if c.toNat = 47 then
        match rest with
        | c2 :: rest2 =>
          if c2.toNat = 47 then skipWsC fuel (dropLine rest2)
          else if c2.toNat = 42 then
            match dropBlock fuel rest2 with
            | some rest3 => skipWsC fuel rest3
            | none => l
          else l
        | [] => l
      else l

def skipWs (l : List Char) : List Char := skipWsC (l.length + 2) l

/-- Match a literal word, returning the rest of the input. -/
def eatWord : List Char → List Char → Option (List Char)
  | [], l => some l
  | _ :: _, [] => none
  | w :: ws, c :: l => if c = w then eatWord ws l else none

def isHexDigitC (c : Char) : Bool :=
  c.isDigit || (97 ≤ c.toNat && c.toNat ≤ 102) || (65 ≤ c.toNat && c.toNat ≤ 70)

/-- ECMAScript-style identifier characters for unquoted JSON5 object keys. -/
def isIdentStart (c : Char) : Bool := c.isAlpha || c = Char.ofNat 95 || c = Char.ofNat 36
def isIdentCont (c : Char) : Bool := isIdentStart c || c.isDigit

/-- Parse a JSON5 number after the optional sign; `none` on failure. -/
def p5NumBody (l : List Char) : Option (List Char) :=
  match eatWord "Infinity".toList l with
  | some rest => some rest
  | none =>
  match eatWord "NaN".toList l with
  | some rest => some rest
  | none =>
  match l with
  | c :: x :: rest =>
    if c.toNat = 48 && (x.toNat = 120 || x.toNat = 88) then
      match rest with
      | d :: _ =>
        if isHexDigitC d then some (rest.dropWhile isHexDigitC) else none
      | [] => none
    else p5DecBody l
  | _ => p5DecBody l
where
  p5DecBody (l : List Char) : Option (List Char) :=
    let intPart := l.takeWhile Char.isDigit
    let l1 := l.dropWhile Char.isDigit
    let (fracDigits, l2) :=
      match l1 with
      | c :: rest =>
        if c.toNat = 46 then (rest.takeWhile Char.isDigit, rest.dropWhile Char.isDigit)
        else ([], l1)
      | [] => ([], l1)
    if intPart.isEmpty && fracDigits.isEmpty &&
        (l1.isEmpty || (l1.headD quoteD).toNat ≠ 46) then none
    else if intPart.isEmpty && fracDigits.isEmpty then none
    else
      match l2 with
      | e :: rest =>
        if e.toNat = 101 || e.toNat = 69 then
          let rest1 :=
            match rest with
            | s :: r2 => if s.toNat = 43 || s.toNat = 45 then r2 else rest
            | [] => rest
          match rest1 with
          | d :: _ => if d.isDigit then some (rest1.dropWhile Char.isDigit) else none
          | [] => none
        else some l2
      | [] => some l2

/-- Parse the body of a quoted JSON5 string (after the opening quote `q`). -/
def p5StrBody : Nat → Char → List Char → Option (List Char)
  | 0, _, _ => none
  | _, _, [] => none
  | fuel + 1, q, c :: rest =>
    if c = q then some rest
    else if c.toNat = 10 || c.toNat = 13 then none
    else if c = backslashC then
      match rest with
      | [] => none
      | e :: r2 =>
        if e.toNat = 120 then
          match r2 with
          | h1 :: h2 :: r3 =>
            if isHexDigitC h1 && isHexDigitC h2 then p5StrBody fuel q r3 else none
          | _ => none
        else if e.toNat = 117 then
          match r2 with
          | h1 :: h2 :: h3 :: h4 :: r3 =>
            if ((isHexDigitC h1 && isHexDigitC h2) && isHexDigitC h3) && isHexDigitC h4 then
              p5StrBody fuel q r3
            else none
          | _ => none
        else if 49 ≤ e.toNat && e.toNat ≤ 57 then none
        else if e.toNat = 13 then
          match r2 with
          | n :: r3 => if n.toNat = 10 then p5StrBody fuel q r3 else p5StrBody fuel q r2
          | [] => p5StrBody fuel q r2
        else p5StrBody fuel q r2
    else p5StrBody fuel q rest

mutual

/-- Parse one JSON5 value, returning the unconsumed remainder. -/
def p5Value : Nat → List Char → Option (List Char)
  | 0, _ => none
  | fuel + 1, l =>
    let l1 := skipWs l
    match l1 with
    | [] => none
    | c :: rest =>
      if c = Char.ofNat 110 then eatWord "ull".toList rest
      else if c = Char.ofNat 116 then eatWord "rue".toList rest
      else if c = Char.ofNat 102 then eatWord "alse".toList rest
      else if c = quoteD || c = quoteS then p5StrBody (rest.length + 1) c rest
      else if c.toNat = 91 then p5Array fuel rest
      else if c = lbrace then p5Object fuel rest
      else if c.toNat = 43 || c.toNat = 45 then p5NumBody rest
      else p5NumBody l1

/-- Parse the remainder of a JSON5 array after `[`. -/
def p5Array : Nat → List Char → Option (List Char)
  | 0, _ => none
  | fuel + 1, l =>
    let l1 := skipWs l
    match l1 with
    | c :: rest =>
      if c.toNat = 93 then some rest
      else
        match p5Value fuel l1 with
        | some r1 => p5ArrayTail fuel r1
        | none => none
    | [] => none

/-- Parse `, value`* `]`, allowing a trailing comma. -/
def p5ArrayTail : Nat → List Char → Option (List Char)
  | 0, _ => none
  | fuel + 1, l =>
    let l1 := skipWs l
    match l1 with
    | c :: rest =>
      if c.toNat = 93 then some rest
      else if c.toNat = 44 then
        let l2 := skipWs rest
        match l2 with
        | c2 :: r2 =>
          if c2.toNat = 93 then some r2
          else
            match p5Value fuel l2 with
            | some r3 => p5ArrayTail fuel r3
            | none => none
        | [] => none
      else none
    | [] => none

/-- Parse the remainder of a JSON5 object after the opening brace. -/
def p5Object : Nat → List Char → Option (List Char)
  | 0, _ => none
  | fuel + 1, l =>
    let l1 := skipWs l
    match l1 with
    | c :: rest =>
      if c = rbrace then some rest
      else
        match p5Member fuel l1 with
        | some r1 => p5ObjectTail fuel r1
        | none => none
    | [] => none

/-- Parse `, member`* and the closing brace, allowing a trailing comma. -/
def p5ObjectTail : Nat → List Char → Option (List Char)
  | 0, _ => none
  | fuel + 1, l =>
    let l1 := skipWs l
    match l1 with
    | c :: rest =>
      if c = rbrace then some rest
      else if c.toNat = 44 then
        let l2 := skipWs rest
        match l2 with
        | c2 :: r2 =>
          if c2 = rbrace then some r2
          else
            match p5Member fuel l2 with
            | some r3 => p5ObjectTail fuel r3
            | none => none
        | [] => none
      else none
    | [] => none

/-- Parse one `key : value` object member. -/
def p5Member : Nat → List Char → Option (List Char)
  | 0, _ => none
  | fuel + 1, l =>
    let l1 := skipWs l
    let keyRest : Option (List Char) :=
      match l1 with
      | c :: rest =>
        if c = quoteD || c = quoteS then p5StrBody (rest.length + 1) c rest
        else if isIdentStart c then some (rest.dropWhile isIdentCont)
        else none
      | [] => none
    match keyRest with
    | some r1 =>
      let r2 := skipWs r1
      match r2 with
      | c :: r3 => if c.toNat = 58 then p5Value fuel r3 else none
      | [] => none
    | none => none

end

/-- Whether SQLite's `json(...)` accepts the text: one JSON5 value
spanning the whole input (surrounding whitespace/comments allowed). -/
def sqlite_json_ok (s : String) : Bool :=
  match p5Value (4 * s.toList.length + 16) s.toList with
  | some rest => (skipWs rest).isEmpty
  | none => false

/-- The single-quote character as a string (used to spell JSON5 literals). -/
def sqc : String := String.singleton quoteS

/-- The exact payload sent by the repository's own test `test_create_data`
(src/main.rs line 265). -/
def testPayload : String :=
  "\x7b" ++ sqc ++ "actix test" ++ sqc ++ ": true, " ++ sqc ++ "timestamp" ++
    sqc ++ ": " ++ sqc ++ "timestamp" ++ sqc ++ "\x7d"

/-! ## The storage model

SQLite state as seen through rusqlite: a file system of stores (one `.db`
file per path), each store a list of named tables, each table a declared
shape and a list of rows.  `INTEGER PRIMARY KEY` makes `id` an alias of
the rowid, which SQLite assigns as one more than the largest id in use
(for a table that has never seen a larger id). -/

structure SqlRow where
  id : Nat
  timestamp : String
  data : String
deriving DecidableEq, Repr

structure SqlTable where
  shape : List (String × String)
  rows : List SqlRow
deriving DecidableEq, Repr

/-- The column shape declared by `create_data`'s CREATE TABLE statement
(src/main.rs lines 80-84). -/
def requiredShape : List (String × String) :=
  [("id", "INTEGER PRIMARY KEY"),
   ("timestamp", "DATETIME NOT NULL"),
   ("data", "TEXT NOT NULL")]

structure SqlStore where
  tables : List (String × SqlTable)
deriving DecidableEq, Repr

structure SqlFs where
  stores : List (String × SqlStore)
deriving DecidableEq, Repr

def emptyStore : SqlStore := ⟨[]⟩

def SqlFs.tableOf (fs : SqlFs) (db t : String) : Option SqlTable :=
  (lookupA fs.stores db).bind (fun st => lookupA st.tables t)

def SqlFs.rowCount (fs : SqlFs) (db t : String) : Nat :=
  ((fs.tableOf db t).map (fun tbl => tbl.rows.length)).getD 0

/-- Rowid assignment for an insert without an explicit id. -/
def nextRowId (tbl : SqlTable) : Nat :=
  (tbl.rows.map SqlRow.id).foldr max 0 + 1

/-- Whether SQLite parses the (string-interpolated) name as a plain
identifier: `create_data` splices the caller-supplied table name into the
statement text unescaped (src/main.rs lines 79-85, 103-106), so a name
that is not a bare identifier makes the statement fail to parse and the
`execute` call return an error. -/
def isValidSqlIdent (s : String) : Bool :=
  !s.isEmpty && !(s.toList.headD quoteD).isDigit &&
    s.toList.all (fun c => c.isAlphanum || c = Char.ofNat 95)

/-! ## Engine operations and the request handler -/

inductive EngineError where
  | openFailure
  | invalidIdent
  | noSuchTable
  | malformedJson
deriving DecidableEq, Repr

structure HttpResp where
  status : Nat
  body : String
deriving DecidableEq, Repr

/-- What a request handler run produces: an HTTP response, or a panic of
the handler task (an `.unwrap()` applied to an `Err`). -/
inductive Outcome where
  | response (r : HttpResp)
  | panicked (e : EngineError)
deriving DecidableEq, Repr

inductive StmtKind where
  | createTable
  | insert
deriving DecidableEq, Repr

/-- One SQL statement as handed to `Connection::execute`: its text and
its parameter bindings. -/
structure Stmt where
  kind : StmtKind
  sql : String
  params : List (String × String)
deriving DecidableEq, Repr

/-- Environment: whether the OS lets `Connection::open` succeed on a
given path (file-system permissions, I/O errors, ...). -/
structure FsEnv where
  openOk : String → Bool

/-- Model of `Connection::open` (src/main.rs line 76): opens the store
file at `path`, creating it if absent. -/
def connectionOpen (env : FsEnv) (fs : SqlFs) (path : String) :
    Except EngineError (SqlFs × SqlStore) :=
  if env.openOk path then
    match lookupA fs.stores path with
    | some st => .ok (fs, st)
    | none => .ok (⟨insertA fs.stores path emptyStore⟩, emptyStore)
  else .error .openFailure

/-- The exact SQL text built by `create_data` for table creation
(src/main.rs lines 79-85). -/
def sql_create_table (table_name : String) : String :=
  "CREATE TABLE IF NOT EXISTS " ++ table_name ++ " (\n" ++
  "            id INTEGER PRIMARY KEY,\n" ++
  "            timestamp DATETIME NOT NULL,\n" ++
  "            data TEXT NOT NULL\n" ++
  "        );"

/-- The exact SQL text built by `create_data` for the insert
(src/main.rs lines 103-106). -/
def sql_insert (table_name : String) : String :=
  "INSERT INTO " ++ table_name ++ " (timestamp, data)\n" ++
  "        VALUES (:timestamp, json(:data));"

/-- Engine semantics of the CREATE TABLE IF NOT EXISTS statement: no-op
when the table exists (whatever its shape), otherwise creates it with the
declared shape. -/
def execCreateTable (st : SqlStore) (table_name : String) :
    Except EngineError SqlStore :=
  if isValidSqlIdent table_name then
    match lookupA st.tables table_name with
    | some _ => .ok st
    | none => .ok ⟨insertA st.tables table_name ⟨requiredShape, []⟩⟩
  else .error .invalidIdent

/-- Engine semantics of the INSERT statement: `json(:data)` rejects text
the engine cannot parse as JSON(5); otherwise a row is appended with a
fresh rowid. -/
def execInsert (st : SqlStore) (table_name timestamp data : String) :
    Except EngineError SqlStore :=
  if isValidSqlIdent table_name then
    match lookupA st.tables table_name with
    | some tbl =>
      if sqlite_json_ok data then
        .ok ⟨insertA st.tables table_name
          ⟨tbl.shape, tbl.rows ++ [⟨nextRowId tbl, timestamp, data⟩]⟩⟩
      else .error .malformedJson
    | none => .error .noSuchTable
  else .error .invalidIdent

structure AppData where
  database_files : String
deriving DecidableEq, Repr

/-- Result of one run of the `create_data` handler: the file system
afterwards, the store path the run resolved, the SQL statements handed to
the engine, and the outcome. -/
structure RunResult where
  fs : SqlFs
  storePath : String
  trace : List Stmt
  outcome : Outcome
deriving Repr

/-- Shallow embedding of the handler `create_data` (src/main.rs lines
59-120), in source order: resolve the store path from the configured root
and the first path segment; open (creating as needed) the store; CREATE
TABLE IF NOT EXISTS with the interpolated table name; decode the body as
UTF-8, answering 400 Bad Request on failure; INSERT the timestamp and
payload through parameter bindings, answering 201 Created on success.
Every `.unwrap()` on an `Err` becomes a `panicked` outcome. -/
def create_data (env : FsEnv) (appdata : AppData) (path : String × String)
    (body : List Nat) (now : String) (fs : SqlFs) : RunResult :=
  let database_files := appdata.database_files
  let database_name := path.fst
  let database := database_files ++ "/" ++ database_name ++ ".db"
  let table_name := path.snd
  match connectionOpen env fs database with
  | .error e => ⟨fs, database, [], .panicked e⟩
  | .ok (fs1, st1) =>
    let cstmt : Stmt := ⟨.createTable, sql_create_table table_name, []⟩
    match execCreateTable st1 table_name with
    | .error e => ⟨fs1, database, [cstmt], .panicked e⟩
    | .ok st2 =>
      let fs2 : SqlFs := ⟨insertA fs1.stores database st2⟩
      match from_utf8 body with
      | none => ⟨fs2, database, [cstmt], .response ⟨400, ""⟩⟩
      | some cs =>
        let data := String.mk cs
        let istmt : Stmt :=
          ⟨.insert, sql_insert table_name, [(":timestamp", now), (":data", data)]⟩
        match execInsert st2 table_name now data with
        | .error e => ⟨fs2, database, [cstmt, istmt], .panicked e⟩
        | .ok st3 =>
          ⟨⟨insertA fs1.stores database st3⟩, database, [cstmt, istmt],
            .response ⟨201, ""⟩⟩

/-- An environment in which every open succeeds. -/
def envAll : FsEnv := ⟨fun _ => true⟩

/-- An environment in which every open fails. -/
def envNone : FsEnv := ⟨fun _ => false⟩

/-! ## The liveness handler `ping` and its serde serialization -/

/-- The response structure serialized by `ping` (src/main.rs lines 123-126). -/
structure PongResponse where
  ping : String
deriving DecidableEq, Repr

/-- Hexadecimal digit, lower case (for serde's control-character escapes). -/
def hexChar (n : Nat) : Char :=
  if n < 10 then Char.ofNat (48 + n) else Char.ofNat (87 + n)

/-- Model of serde_json's string escaping: `"` and `\` are escaped, the
short escapes are used for the usual control characters, and remaining
control characters become `\u00XX`. -/
def escapeJsonChar (c : Char) : String :=
  if c = quoteD then String.mk [backslashC, quoteD]
  else if c = backslashC then String.mk [backslashC, backslashC]
  else if c.toNat = 8 then String.mk [backslashC, Char.ofNat 98]
  else if c.toNat = 9 then String.mk [backslashC, Char.ofNat 116]
  else if c.toNat = 10 then String.mk [backslashC, Char.ofNat 110]
  else if c.toNat = 12 then String.mk [backslashC, Char.ofNat 102]
  else if c.toNat = 13 then String.mk [backslashC, Char.ofNat 114]
  else if c.toNat < 32 then
    String.mk [backslashC, Char.ofNat 117, Char.ofNat 48, Char.ofNat 48,
      hexChar (c.toNat / 16), hexChar (c.toNat % 16)]
  else String.singleton c

def encodeJsonString (s : String) : String :=
  "\"" ++ String.join (s.toList.map escapeJsonChar) ++ "\""

/-- serde_json's serialization of `PongResponse` (field order as declared). -/
def serializePong (p : PongResponse) : String :=
  "\x7b\"ping\":" ++ encodeJsonString p.ping ++ "\x7d"

/-- Shallow embedding of the handler `ping` (src/main.rs lines 129-139):
builds `PongResponse { ping: "pong" }` and returns it as a JSON body with
the default 200 OK status of `web::Json`. -/
def ping : HttpResp :=
  ⟨200, serializePong ⟨"pong"⟩⟩

/-- Router-level view of `GET /ping`: the handler takes no storage
argument at all (src/main.rs line 130), so dispatching it over any
file-system state returns that state untouched. -/
def handle_ping (fs : SqlFs) : SqlFs × HttpResp := (fs, ping)

/-! ## Log-level selection in `actix_main` (src/main.rs lines 156-166) -/

inductive TracingLevel where
  | debugL
  | infoL
  | warnL
deriving DecidableEq, Repr

/-- The CLI options (src/main.rs lines 210-230). -/
structure Args where
  addr : String
  port : Nat
  database_files : String
  verbose : Bool
  debugFlag : Bool
deriving DecidableEq, Repr

/-- Model of `get_env_var` (src/main.rs lines 147-152): the value of the
variable when set, `"not set"` otherwise. -/
def get_env_var (val : Option String) : String :=
  match val with
  | some v => v
  | none => "not set"

/-- The `tracing_log_level` computation of `actix_main` (src/main.rs
lines 160-166): `args.debug || env == "debug"`, then
`args.verbose || env == "info"`, else WARN. -/
def tracing_log_level (args : Args) (env_rust_log : String) : TracingLevel :=
  if args.debugFlag || env_rust_log = "debug" then .debugL
  else if args.verbose || env_rust_log = "info" then .infoL
  else .warnL

/-- Default CLI arguments (src/main.rs lines 212-229). -/
def defaultArgs : Args := ⟨"0.0.0.0", 8888, "./", false, false⟩

/-! ## Theorems -/

/-- C6: every invocation of `GET /ping` returns status 200 with the exact
JSON body `\x7b"ping":"pong"\x7d`, leaves any storage state untouched, and
succeeds independently of that state — including the state in which the
configured store root holds no store at all. -/
theorem ping_always_pong (fs : SqlFs) :
    handle_ping fs = (fs, ⟨200, "\x7b\"ping\":\"pong\"\x7d"⟩) ∧
    (handle_ping ⟨[]⟩).snd = ping := by
  refine ⟨?_, rfl⟩
  show (fs, ping) = _
  have : ping = ⟨200, "\x7b\"ping\":\"pong\"\x7d"⟩ := by decide
  rw [this]

/-- C9 (code-bug evidence): with the explicit `--verbose` flag given and
`RUST_LOG=debug` in the environment, `actix_main` selects DEBUG, while
the same flags with the variable unset select INFO — the environment
variable changes the outcome even though an explicit flag was given,
contradicting the fallback behaviour stated by the code's own comment
(src/main.rs lines 157-158). -/
theorem tracing_log_level_env_overrides_flag :
    tracing_log_level ⟨"0.0.0.0", 8888, "./", true, false⟩
        (get_env_var (some "debug")) = .debugL ∧
    tracing_log_level ⟨"0.0.0.0", 8888, "./", true, false⟩
        (get_env_var none) = .infoL := by
  constructor <;> rfl

/-- C8: the store path used by `create_data` is exactly the configured
root joined with the database name plus `.db`, and any two invocations
sharing the configured root and the database name resolve the same path,
whatever their table name, body, timestamp, or storage state. -/
theorem create_data_store_path (env env2 : FsEnv) (appdata : AppData)
    (d t t2 : String) (body body2 : List Nat) (now now2 : String)
    (fs fs2 : SqlFs) :
    (create_data env appdata (d, t) body now fs).storePath =
      appdata.database_files ++ "/" ++ d ++ ".db" ∧
    (create_data env2 appdata (d, t2) body2 now2 fs2).storePath =
      (create_data env appdata (d, t) body now fs).storePath := by
  have key : ∀ (e : FsEnv) (t0 : String) (b : List Nat) (n : String) (f : SqlFs),
      (create_data e appdata (d, t0) b n f).storePath =
        appdata.database_files ++ "/" ++ d ++ ".db" := by
    intro e t0 b n f
    simp only [create_data]
    split
    · rfl
    · split
      · rfl
      · split
        · rfl
        · split <;> rfl
  exact ⟨key env t body now fs, by rw [key, key]⟩

/-- C7: every INSERT statement `create_data` hands to the engine carries
the timestamp and the payload exclusively as parameter bindings, and its
SQL text is a function of the table name alone — two runs that share a
table name produce identical insert SQL, whatever their payloads,
timestamps, stores, or environments. -/
theorem create_data_insert_parameterized (env env2 : FsEnv)
    (a a2 : AppData) (d d2 t : String) (body body2 : List Nat)
    (now now2 : String) (fs fs2 : SqlFs) (s s2 : Stmt)
    (hs : s ∈ (create_data env a (d, t) body now fs).trace)
    (hk : s.kind = .insert)
    (hs2 : s2 ∈ (create_data env2 a2 (d2, t) body2 now2 fs2).trace)
    (hk2 : s2.kind = .insert) :
    s.sql = sql_insert t ∧ s2.sql = s.sql ∧
    (∃ data0, s.params = [(":timestamp", now), (":data", data0)] ∧
      from_utf8 body = some data0.toList) := by
  have key : ∀ (e : FsEnv) (a0 : AppData) (d0 : String) (b : List Nat)
      (n : String) (f : SqlFs) (s0 : Stmt),
      s0 ∈ (create_data e a0 (d0, t) b n f).trace → s0.kind = .insert →
      s0.sql = sql_insert t ∧
        ∃ data0, s0.params = [(":timestamp", n), (":data", data0)] ∧
          from_utf8 b = some data0.toList := by
    intro e a0 d0 b n f s0 hmem hkind
    simp only [create_data] at hmem
    split at hmem
    · simp at hmem
    · split at hmem
      · simp at hmem
        subst hmem
        simp [StmtKind] at hkind
      · split at hmem
        next hdec =>
          simp at hmem
          subst hmem
          simp [StmtKind] at hkind
        next cs hdec =>
          split at hmem <;>
          · simp at hmem
            rcases hmem with hmem | hmem
            · subst hmem
              simp [StmtKind] at hkind
            · subst hmem
              exact ⟨rfl, String.mk cs, rfl, by rw [hdec]; rfl⟩
  obtain ⟨h1, hparams⟩ := key env a d body now fs s hs hk
  obtain ⟨h2, _⟩ := key env2 a2 d2 body2 now2 fs2 s2 hs2 hk2
  exact ⟨h1, by rw [h1, h2], hparams⟩

/-- C7 witness: a concrete run whose trace contains an insert statement,
with the theorem applied to it. -/
theorem create_data_insert_parameterized_witness :
    (⟨.insert, sql_insert "test", [(":timestamp", "ts"), (":data", "true")]⟩ : Stmt) ∈
      (create_data envAll ⟨"./"⟩ ("test", "test") (asciiBytes "true") "ts" ⟨[]⟩).trace ∧
    sql_insert "test" = sql_insert "test" := by
  have h := create_data_insert_parameterized envAll envAll ⟨"./"⟩ ⟨"./"⟩
    "test" "test" "test" (asciiBytes "true") (asciiBytes "true") "ts" "ts"
    ⟨[]⟩ ⟨[]⟩
    ⟨.insert, sql_insert "test", [(":timestamp", "ts"), (":data", "true")]⟩
    ⟨.insert, sql_insert "test", [(":timestamp", "ts"), (":data", "true")]⟩
    (by decide) (by decide) (by decide) (by decide)
  exact ⟨by decide, h.1 ▸ rfl⟩

/-- C1: a PUT of an engine-valid JSON payload with a well-formed table
name against a fresh store answers 201 Created and leaves exactly one row
in table `t` of store `d`: identifier 1 (freshly generated), the
server-assigned timestamp, and a document column equal to the decoded
payload text — hence parsing it yields exactly the payload's JSON value. -/
theorem create_data_fresh_store_inserts_one_row (env : FsEnv)
    (appdata : AppData) (d t : String) (body : List Nat) (now : String)
    (fs : SqlFs) (cs : List Char)
    (henv : env.openOk (appdata.database_files ++ "/" ++ d ++ ".db") = true)
    (hident : isValidSqlIdent t = true)
    (hfresh : lookupA fs.stores (appdata.database_files ++ "/" ++ d ++ ".db") = none)
    (hdec : from_utf8 body = some cs)
    (hjson : sqlite_json_ok (String.mk cs) = true) :
    (create_data env appdata (d, t) body now fs).outcome =
      .response ⟨201, ""⟩ ∧
    (create_data env appdata (d, t) body now fs).fs.tableOf
        (appdata.database_files ++ "/" ++ d ++ ".db") t =
      some ⟨requiredShape, [⟨1, now, String.mk cs⟩]⟩ := by
  have hconn : connectionOpen env fs (appdata.database_files ++ "/" ++ d ++ ".db") =
      .ok (⟨insertA fs.stores (appdata.database_files ++ "/" ++ d ++ ".db") emptyStore⟩,
        emptyStore) := by
    simp [connectionOpen, henv, hfresh]
  have hct : execCreateTable emptyStore t = .ok ⟨[(t, ⟨requiredShape, []⟩)]⟩ := by
    simp [execCreateTable, hident, emptyStore, lookupA, insertA]
  have hins : execInsert ⟨[(t, ⟨requiredShape, []⟩)]⟩ t now (String.mk cs) =
      .ok ⟨[(t, ⟨requiredShape, [⟨1, now, String.mk cs⟩]⟩)]⟩ := by
    simp [execInsert, hident, lookupA, hjson, insertA, nextRowId]
  constructor
  · simp only [create_data, hconn, hct, hdec, hins]
  · simp only [create_data, hconn, hct, hdec, hins]
    simp [SqlFs.tableOf, lookupA_insertA_self, lookupA]

/-- C1 witness: the spec's example scenario, `PUT /shop/orders` with body
`\x7b"item":"pen","qty":3\x7d` against an empty file system. -/
theorem create_data_fresh_store_inserts_one_row_witness :
    (envAll.openOk (AppData.database_files ⟨"./"⟩ ++ "/" ++ "shop" ++ ".db") = true) ∧
    from_utf8 (asciiBytes "\x7b\"item\":\"pen\",\"qty\":3\x7d") =
      some "\x7b\"item\":\"pen\",\"qty\":3\x7d".toList ∧
    (create_data envAll ⟨"./"⟩ ("shop", "orders")
        (asciiBytes "\x7b\"item\":\"pen\",\"qty\":3\x7d") "ts1" ⟨[]⟩).outcome =
      .response ⟨201, ""⟩ ∧
    (create_data envAll ⟨"./"⟩ ("shop", "orders")
        (asciiBytes "\x7b\"item\":\"pen\",\"qty\":3\x7d") "ts1" ⟨[]⟩).fs.tableOf
        (AppData.database_files ⟨"./"⟩ ++ "/" ++ "shop" ++ ".db") "orders" =
      some ⟨requiredShape, [⟨1, "ts1", "\x7b\"item\":\"pen\",\"qty\":3\x7d"⟩]⟩ := by
  have h := create_data_fresh_store_inserts_one_row envAll ⟨"./"⟩ "shop" "orders"
    (asciiBytes "\x7b\"item\":\"pen\",\"qty\":3\x7d") "ts1" ⟨[]⟩
    "\x7b\"item\":\"pen\",\"qty\":3\x7d".toList
    (by decide) (by decide) (by decide) (by decide) (by decide)
  exact ⟨by decide, by decide, h.1, h.2⟩

/-- C2 counterexample: a body that is not valid UTF-8 (`[0xFF]`) sent
against a fresh store does get the 400 response, but the target table
does NOT remain absent — `create_data` provisions the table (src/main.rs
lines 79-86) before it decodes the body (line 90), so the table exists
after the failed request even though it did not exist before. -/
theorem create_data_invalid_utf8_counterexample :
    (create_data envAll ⟨"./"⟩ ("cex", "cex") [0xFF] "ts" ⟨[]⟩).outcome =
      .response ⟨400, ""⟩ ∧
    (create_data envAll ⟨"./"⟩ ("cex", "cex") [0xFF] "ts" ⟨[]⟩).fs.tableOf
      ".//cex.db" "cex" = some ⟨requiredShape, []⟩ ∧
    SqlFs.tableOf ⟨[]⟩ ".//cex.db" "cex" = none := by decide

/-- C2 amended: a body that does not decode as UTF-8 yields 400 Bad
Request and inserts no row — the target table's row count is unchanged —
but the table does not remain absent: schema provisioning runs before
body decoding, so the table exists (possibly empty) after the request. -/
theorem create_data_invalid_utf8_no_insert (env : FsEnv)
    (appdata : AppData) (d t : String) (body : List Nat) (now : String)
    (fs : SqlFs)
    (henv : env.openOk (appdata.database_files ++ "/" ++ d ++ ".db") = true)
    (hident : isValidSqlIdent t = true)
    (hdec : from_utf8 body = none) :
    (create_data env appdata (d, t) body now fs).outcome =
      .response ⟨400, ""⟩ ∧
    (create_data env appdata (d, t) body now fs).fs.rowCount
        (appdata.database_files ++ "/" ++ d ++ ".db") t =
      fs.rowCount (appdata.database_files ++ "/" ++ d ++ ".db") t ∧
    ((create_data env appdata (d, t) body now fs).fs.tableOf
        (appdata.database_files ++ "/" ++ d ++ ".db") t).isSome = true := by
  rcases h0 : lookupA fs.stores (appdata.database_files ++ "/" ++ d ++ ".db") with _ | st0
  · have hconn : connectionOpen env fs (appdata.database_files ++ "/" ++ d ++ ".db") =
        .ok (⟨insertA fs.stores (appdata.database_files ++ "/" ++ d ++ ".db") emptyStore⟩,
          emptyStore) := by
      simp [connectionOpen, henv, h0]
    have hct : execCreateTable emptyStore t = .ok ⟨[(t, ⟨requiredShape, []⟩)]⟩ := by
      simp [execCreateTable, hident, emptyStore, lookupA, insertA]
    refine ⟨?_, ?_, ?_⟩ <;> simp only [create_data, hconn, hct, hdec] <;>
      simp [SqlFs.rowCount, SqlFs.tableOf, lookupA_insertA_self, h0, lookupA]
  · have hconn : connectionOpen env fs (appdata.database_files ++ "/" ++ d ++ ".db") =
        .ok (fs, st0) := by
      simp [connectionOpen, henv, h0]
    rcases h1 : lookupA st0.tables t with _ | tbl
    · have hct : execCreateTable st0 t =
          .ok ⟨insertA st0.tables t ⟨requiredShape, []⟩⟩ := by
        simp [execCreateTable, hident, h1]
      refine ⟨?_, ?_, ?_⟩ <;> simp only [create_data, hconn, hct, hdec] <;>
        simp [SqlFs.rowCount, SqlFs.tableOf, lookupA_insertA_self, h0, h1]
    · have hct : execCreateTable st0 t = .ok st0 := by
        simp [execCreateTable, hident, h1]
      refine ⟨?_, ?_, ?_⟩ <;> simp only [create_data, hconn, hct, hdec] <;>
        simp [SqlFs.rowCount, SqlFs.tableOf, lookupA_insertA_self, h0, h1]

/-- C2 witness: the amended theorem applied to the `[0xFF]` body against
a fresh store. -/
theorem create_data_invalid_utf8_no_insert_witness :
    from_utf8 [0xFF] = none ∧
    (create_data envAll ⟨"./"⟩ ("w2", "w2") [0xFF] "ts" ⟨[]⟩).outcome =
      .response ⟨400, ""⟩ ∧
    (create_data envAll ⟨"./"⟩ ("w2", "w2") [0xFF] "ts" ⟨[]⟩).fs.rowCount
      (AppData.database_files ⟨"./"⟩ ++ "/" ++ "w2" ++ ".db") "w2" =
      SqlFs.rowCount ⟨[]⟩ (AppData.database_files ⟨"./"⟩ ++ "/" ++ "w2" ++ ".db") "w2" := by
  have h := create_data_invalid_utf8_no_insert envAll ⟨"./"⟩ "w2" "w2" [0xFF]
    "ts" ⟨[]⟩ (by decide) (by decide) (by decide)
  exact ⟨by decide, h.1, h.2.1⟩

/-- C3 counterexample: the claim's own example of "valid text but not
valid JSON" — the single-quoted payload, exactly the one the repository's
test `test_create_data` sends — is NOT rejected by the engine's `json()`
function: SQLite's JSON parser accepts JSON5 text, so the write answers
201 Created and the row count grows from 0 to 1 (matching the test's own
`StatusCode::CREATED` assertion, src/main.rs line 275). -/
theorem create_data_json5_accepted_counterexample :
    sqlite_json_ok testPayload = true ∧
    (create_data envAll ⟨"./"⟩ ("test", "test") (asciiBytes testPayload)
        "ts" ⟨[]⟩).outcome = .response ⟨201, ""⟩ ∧
    (create_data envAll ⟨"./"⟩ ("test", "test") (asciiBytes testPayload)
        "ts" ⟨[]⟩).fs.rowCount ".//test.db" "test" = 1 ∧
    SqlFs.rowCount ⟨[]⟩ ".//test.db" "test" = 0 := by decide

/-- C3 amended: a payload that is valid text but that the engine's JSON
parser — which accepts JSON5, hence strictly more than RFC JSON — cannot
parse is rejected by the `json()` function at insert time as a storage
error (surfacing as the `.unwrap()` panic of the handler), without
corrupting the table: the table's row count is unchanged. -/
theorem create_data_engine_rejected_json (env : FsEnv)
    (appdata : AppData) (d t : String) (body : List Nat) (now : String)
    (fs : SqlFs) (cs : List Char)
    (henv : env.openOk (appdata.database_files ++ "/" ++ d ++ ".db") = true)
    (hident : isValidSqlIdent t = true)
    (hdec : from_utf8 body = some cs)
    (hjson : sqlite_json_ok (String.mk cs) = false) :
    (create_data env appdata (d, t) body now fs).outcome =
      .panicked .malformedJson ∧
    (create_data env appdata (d, t) body now fs).fs.rowCount
        (appdata.database_files ++ "/" ++ d ++ ".db") t =
      fs.rowCount (appdata.database_files ++ "/" ++ d ++ ".db") t := by
  rcases h0 : lookupA fs.stores (appdata.database_files ++ "/" ++ d ++ ".db") with _ | st0
  · have hconn : connectionOpen env fs (appdata.database_files ++ "/" ++ d ++ ".db") =
        .ok (⟨insertA fs.stores (appdata.database_files ++ "/" ++ d ++ ".db") emptyStore⟩,
          emptyStore) := by
      simp [connectionOpen, henv, h0]
    have hct : execCreateTable emptyStore t = .ok ⟨[(t, ⟨requiredShape, []⟩)]⟩ := by
      simp [execCreateTable, hident, emptyStore, lookupA, insertA]
    have hins : execInsert ⟨[(t, ⟨requiredShape, []⟩)]⟩ t now (String.mk cs) =
        .error .malformedJson := by
      simp [execInsert, hident, lookupA, hjson]
    refine ⟨?_, ?_⟩ <;> simp only [create_data, hconn, hct, hdec, hins] <;>
      simp [SqlFs.rowCount, SqlFs.tableOf, lookupA_insertA_self, h0, lookupA]
  · have hconn : connectionOpen env fs (appdata.database_files ++ "/" ++ d ++ ".db") =
        .ok (fs, st0) := by
      simp [connectionOpen, henv, h0]
    rcases h1 : lookupA st0.tables t with _ | tbl
    · have hct : execCreateTable st0 t =
          .ok ⟨insertA st0.tables t ⟨requiredShape, []⟩⟩ := by
        simp [execCreateTable, hident, h1]
      have hins : execInsert ⟨insertA st0.tables t ⟨requiredShape, []⟩⟩ t now
          (String.mk cs) = .error .malformedJson := by
        simp [execInsert, hident, lookupA_insertA_self, hjson]
      refine ⟨?_, ?_⟩ <;> simp only [create_data, hconn, hct, hdec, hins] <;>
        simp [SqlFs.rowCount, SqlFs.tableOf, lookupA_insertA_self, h0, h1]
    · have hct : execCreateTable st0 t = .ok st0 := by
        simp [execCreateTable, hident, h1]
      have hins : execInsert st0 t now (String.mk cs) = .error .malformedJson := by
        simp [execInsert, hident, h1, hjson]
      refine ⟨?_, ?_⟩ <;> simp only [create_data, hconn, hct, hdec, hins] <;>
        simp [SqlFs.rowCount, SqlFs.tableOf, lookupA_insertA_self, h0, h1]

/-- C3 witness: the amended theorem applied to the text `(` — valid
UTF-8, rejected even by the JSON5 parser. -/
theorem create_data_engine_rejected_json_witness :
    sqlite_json_ok "(" = false ∧
    (create_data envAll ⟨"./"⟩ ("w3", "w3") (asciiBytes "(") "ts" ⟨[]⟩).outcome =
      .panicked .malformedJson ∧
    (create_data envAll ⟨"./"⟩ ("w3", "w3") (asciiBytes "(") "ts" ⟨[]⟩).fs.rowCount
      (AppData.database_files ⟨"./"⟩ ++ "/" ++ "w3" ++ ".db") "w3" =
      SqlFs.rowCount ⟨[]⟩ (AppData.database_files ⟨"./"⟩ ++ "/" ++ "w3" ++ ".db") "w3" := by
  have h := create_data_engine_rejected_json envAll ⟨"./"⟩ "w3" "w3"
    (asciiBytes "(") "ts" ⟨[]⟩ "(".toList (by decide) (by decide) (by decide)
    (by decide)
  exact ⟨by decide, h.1, h.2⟩

/-- C4 counterexample: when the storage layer fails to open the store
file, the handler's `.unwrap()` (src/main.rs line 76) panics — the run's
outcome is a panic, not any HTTP response, so no server error response is
propagated to the client. -/
theorem create_data_storage_failure_counterexample :
    (create_data envNone ⟨"./"⟩ ("c4", "c4") (asciiBytes "true") "ts" ⟨[]⟩).outcome =
      .panicked .openFailure := by decide

/-- C4 amended: each storage-layer failure — opening the store file,
provisioning the schema, or inserting the row — makes the handler panic
through `.unwrap()` rather than answer with a server error response; an
open failure additionally leaves the storage state untouched, so the
failure's effect is confined to the current request. -/
theorem create_data_storage_failure_panics (env : FsEnv)
    (appdata : AppData) (d t : String) (body : List Nat) (now : String)
    (fs : SqlFs) :
    (env.openOk (appdata.database_files ++ "/" ++ d ++ ".db") = false →
      (create_data env appdata (d, t) body now fs).outcome =
        .panicked .openFailure ∧
      (create_data env appdata (d, t) body now fs).fs = fs) ∧
    (env.openOk (appdata.database_files ++ "/" ++ d ++ ".db") = true →
      isValidSqlIdent t = false →
      (create_data env appdata (d, t) body now fs).outcome =
        .panicked .invalidIdent) ∧
    (env.openOk (appdata.database_files ++ "/" ++ d ++ ".db") = true →
      isValidSqlIdent t = true →
      ∀ cs, from_utf8 body = some cs → sqlite_json_ok (String.mk cs) = false →
      (create_data env appdata (d, t) body now fs).outcome =
        .panicked .malformedJson) := by
  refine ⟨?_, ?_, ?_⟩
  · intro hopen
    have hconn : connectionOpen env fs (appdata.database_files ++ "/" ++ d ++ ".db") =
        .error .openFailure := by
      simp [connectionOpen, hopen]
    exact ⟨by simp only [create_data, hconn], by simp only [create_data, hconn]⟩
  · intro hopen hident
    have hct : ∀ st : SqlStore, execCreateTable st t = .error .invalidIdent := by
      intro st
      simp [execCreateTable, hident]
    rcases h0 : lookupA fs.stores (appdata.database_files ++ "/" ++ d ++ ".db") with _ | st0
    · have hconn : connectionOpen env fs (appdata.database_files ++ "/" ++ d ++ ".db") =
          .ok (⟨insertA fs.stores (appdata.database_files ++ "/" ++ d ++ ".db")
            emptyStore⟩, emptyStore) := by
        simp [connectionOpen, hopen, h0]
      simp only [create_data, hconn, hct]
    · have hconn : connectionOpen env fs (appdata.database_files ++ "/" ++ d ++ ".db") =
          .ok (fs, st0) := by
        simp [connectionOpen, hopen, h0]
      simp only [create_data, hconn, hct]
  · intro hopen hident cs hdec hjson
    rcases h0 : lookupA fs.stores (appdata.database_files ++ "/" ++ d ++ ".db") with _ | st0
    · have hconn : connectionOpen env fs (appdata.database_files ++ "/" ++ d ++ ".db") =
          .ok (⟨insertA fs.stores (appdata.database_files ++ "/" ++ d ++ ".db")
            emptyStore⟩, emptyStore) := by
        simp [connectionOpen, hopen, h0]
      have hct : execCreateTable emptyStore t = .ok ⟨[(t, ⟨requiredShape, []⟩)]⟩ := by
        simp [execCreateTable, hident, emptyStore, lookupA, insertA]
      have hins : execInsert ⟨[(t, ⟨requiredShape, []⟩)]⟩ t now (String.mk cs) =
          .error .malformedJson := by
        simp [execInsert, hident, lookupA, hjson]
      simp only [create_data, hconn, hct, hdec, hins]
    · have hconn : connectionOpen env fs (appdata.database_files ++ "/" ++ d ++ ".db") =
          .ok (fs, st0) := by
        simp [connectionOpen, hopen, h0]
      rcases h1 : lookupA st0.tables t with _ | tbl
      · have hct : execCreateTable st0 t =
            .ok ⟨insertA st0.tables t ⟨requiredShape, []⟩⟩ := by
          simp [execCreateTable, hident, h1]
        have hins : execInsert ⟨insertA st0.tables t ⟨requiredShape, []⟩⟩ t now
            (String.mk cs) = .error .malformedJson := by
          simp [execInsert, hident, lookupA_insertA_self, hjson]
        simp only [create_data, hconn, hct, hdec, hins]
      · have hct : execCreateTable st0 t = .ok st0 := by
          simp [execCreateTable, hident, h1]
        have hins : execInsert st0 t now (String.mk cs) = .error .malformedJson := by
          simp [execInsert, hident, h1, hjson]
        simp only [create_data, hconn, hct, hdec, hins]

/-- C4 witness: the amended theorem instantiated at a failing open, an
injection-shaped table name, and an engine-rejected payload. -/
theorem create_data_storage_failure_panics_witness :
    (create_data envNone ⟨"./"⟩ ("w4", "w4") [] "ts" ⟨[]⟩).outcome =
      .panicked .openFailure ∧
    (create_data envAll ⟨"./"⟩ ("w4", "bad name") [] "ts" ⟨[]⟩).outcome =
      .panicked .invalidIdent ∧
    (create_data envAll ⟨"./"⟩ ("w4", "w4") (asciiBytes "(") "ts" ⟨[]⟩).outcome =
      .panicked .malformedJson := by
  refine ⟨?_, ?_, ?_⟩
  · exact ((create_data_storage_failure_panics envNone ⟨"./"⟩ "w4" "w4" [] "ts"
      ⟨[]⟩).1 (by decide)).1
  · exact (create_data_storage_failure_panics envAll ⟨"./"⟩ "w4" "bad name" [] "ts"
      ⟨[]⟩).2.1 (by decide) (by decide)
  · exact (create_data_storage_failure_panics envAll ⟨"./"⟩ "w4" "w4"
      (asciiBytes "(") "ts" ⟨[]⟩).2.2 (by decide) (by decide) "(".toList
      (by decide) (by decide)

/-- C5: two writes to the same never-before-seen `(d, t)` provision the
table exactly once — it exists with the declared shape after the first
call and has the identical shape after the second, the second CREATE
TABLE IF NOT EXISTS being a no-op — and insert two distinct rows with
the distinct identifiers 1 and 2. -/
theorem create_data_twice_idempotent_provisioning (env : FsEnv)
    (appdata : AppData) (d t : String) (body1 body2 : List Nat)
    (now1 now2 : String) (fs : SqlFs) (cs1 cs2 : List Char)
    (henv : env.openOk (appdata.database_files ++ "/" ++ d ++ ".db") = true)
    (hident : isValidSqlIdent t = true)
    (hfresh : lookupA fs.stores (appdata.database_files ++ "/" ++ d ++ ".db") = none)
    (hdec1 : from_utf8 body1 = some cs1)
    (hjson1 : sqlite_json_ok (String.mk cs1) = true)
    (hdec2 : from_utf8 body2 = some cs2)
    (hjson2 : sqlite_json_ok (String.mk cs2) = true) :
    (create_data env appdata (d, t) body1 now1 fs).outcome =
      .response ⟨201, ""⟩ ∧
    (create_data env appdata (d, t) body1 now1 fs).fs.tableOf
        (appdata.database_files ++ "/" ++ d ++ ".db") t =
      some ⟨requiredShape, [⟨1, now1, String.mk cs1⟩]⟩ ∧
    (create_data env appdata (d, t) body2 now2
        (create_data env appdata (d, t) body1 now1 fs).fs).outcome =
      .response ⟨201, ""⟩ ∧
    (create_data env appdata (d, t) body2 now2
        (create_data env appdata (d, t) body1 now1 fs).fs).fs.tableOf
        (appdata.database_files ++ "/" ++ d ++ ".db") t =
      some ⟨requiredShape,
        [⟨1, now1, String.mk cs1⟩, ⟨2, now2, String.mk cs2⟩]⟩ := by
  have hconn1 : connectionOpen env fs (appdata.database_files ++ "/" ++ d ++ ".db") =
      .ok (⟨insertA fs.stores (appdata.database_files ++ "/" ++ d ++ ".db") emptyStore⟩,
        emptyStore) := by
    simp [connectionOpen, henv, hfresh]
  have hct1 : execCreateTable emptyStore t = .ok ⟨[(t, ⟨requiredShape, []⟩)]⟩ := by
    simp [execCreateTable, hident, emptyStore, lookupA, insertA]
  have hins1 : execInsert ⟨[(t, ⟨requiredShape, []⟩)]⟩ t now1 (String.mk cs1) =
      .ok ⟨[(t, ⟨requiredShape, [⟨1, now1, String.mk cs1⟩]⟩)]⟩ := by
    simp [execInsert, hident, lookupA, hjson1, insertA, nextRowId]
  have hfs1 : (create_data env appdata (d, t) body1 now1 fs).fs =
      ⟨insertA (insertA fs.stores (appdata.database_files ++ "/" ++ d ++ ".db")
          emptyStore) (appdata.database_files ++ "/" ++ d ++ ".db")
        ⟨[(t, ⟨requiredShape, [⟨1, now1, String.mk cs1⟩]⟩)]⟩⟩ := by
    simp only [create_data, hconn1, hct1, hdec1, hins1]
  have hconn2 : connectionOpen env
      ⟨insertA (insertA fs.stores (appdata.database_files ++ "/" ++ d ++ ".db")
          emptyStore) (appdata.database_files ++ "/" ++ d ++ ".db")
        ⟨[(t, ⟨requiredShape, [⟨1, now1, String.mk cs1⟩]⟩)]⟩⟩
      (appdata.database_files ++ "/" ++ d ++ ".db") =
      .ok (⟨insertA (insertA fs.stores (appdata.database_files ++ "/" ++ d ++ ".db")
          emptyStore) (appdata.database_files ++ "/" ++ d ++ ".db")
        ⟨[(t, ⟨requiredShape, [⟨1, now1, String.mk cs1⟩]⟩)]⟩⟩,
        ⟨[(t, ⟨requiredShape, [⟨1, now1, String.mk cs1⟩]⟩)]⟩) := by
    simp [connectionOpen, henv, lookupA_insertA_self]
  have hct2 : execCreateTable ⟨[(t, ⟨requiredShape, [⟨1, now1, String.mk cs1⟩]⟩)]⟩ t =
      .ok ⟨[(t, ⟨requiredShape, [⟨1, now1, String.mk cs1⟩]⟩)]⟩ := by
    simp [execCreateTable, hident, lookupA]
  have hins2 : execInsert ⟨[(t, ⟨requiredShape, [⟨1, now1, String.mk cs1⟩]⟩)]⟩ t
      now2 (String.mk cs2) =
      .ok ⟨[(t, ⟨requiredShape,
        [⟨1, now1, String.mk cs1⟩, ⟨2, now2, String.mk cs2⟩]⟩)]⟩ := by
    simp [execInsert, hident, lookupA, hjson2, insertA, nextRowId]
  refine ⟨?_, ?_, ?_, ?_⟩
  · simp only [create_data, hconn1, hct1, hdec1, hins1]
  · rw [hfs1]
    simp [SqlFs.tableOf, lookupA_insertA_self, lookupA]
  · rw [hfs1]
    simp only [create_data, hconn2, hct2, hdec2, hins2]
  · rw [hfs1]
    simp only [create_data, hconn2, hct2, hdec2, hins2]
    simp [SqlFs.tableOf, lookupA_insertA_self, lookupA]

/-- C5 witness: two concrete writes of `true` and `false` to a fresh
`(w5, w5)` pair, showing 201 twice, one table shape, and rows 1 and 2. -/
theorem create_data_twice_idempotent_provisioning_witness :
    (create_data envAll ⟨"./"⟩ ("w5", "w5") (asciiBytes "true") "t1" ⟨[]⟩).outcome =
      .response ⟨201, ""⟩ ∧
    (create_data envAll ⟨"./"⟩ ("w5", "w5") (asciiBytes "false") "t2"
        (create_data envAll ⟨"./"⟩ ("w5", "w5") (asciiBytes "true") "t1" ⟨[]⟩).fs).fs.tableOf
        (AppData.database_files ⟨"./"⟩ ++ "/" ++ "w5" ++ ".db") "w5" =
      some ⟨requiredShape, [⟨1, "t1", "true"⟩, ⟨2, "t2", "false"⟩]⟩ := by
  have h := create_data_twice_idempotent_provisioning envAll ⟨"./"⟩ "w5" "w5"
    (asciiBytes "true") (asciiBytes "false") "t1" "t2" ⟨[]⟩ "true".toList
    "false".toList (by decide) (by decide) (by decide) (by decide) (by decide)
    (by decide) (by decide)
  exact ⟨h.1, h.2.2.2⟩

/-- C10: whenever `create_data` produces an HTTP response at all (does
not panic in the storage layer), that response is 400 Bad Request exactly
when the body bytes are not valid UTF-8, is 201 Created exactly when they
are (the insert having been accepted), and no other status ever leaves
this handler. -/
theorem create_data_status_characterization (env : FsEnv)
    (appdata : AppData) (d t : String) (body : List Nat) (now : String)
    (fs : SqlFs) (r : HttpResp)
    (hresp : (create_data env appdata (d, t) body now fs).outcome = .response r) :
    (from_utf8 body = none → r = ⟨400, ""⟩) ∧
    (∀ cs, from_utf8 body = some cs → r = ⟨201, ""⟩) ∧
    (r.status = 400 ∨ r.status = 201) := by
  simp only [create_data] at hresp
  split at hresp
  · simp at hresp
  · split at hresp
    · simp at hresp
    · split at hresp
      next heq =>
        simp only [Outcome.response.injEq] at hresp
        subst hresp
        refine ⟨fun _ => rfl, fun cs hsome => ?_, Or.inl rfl⟩
        rw [heq] at hsome
        cases hsome
      next cs heq =>
        split at hresp
        · simp at hresp
        · simp only [Outcome.response.injEq] at hresp
          subst hresp
          refine ⟨fun hnone => ?_, fun cs2 _ => rfl, Or.inr rfl⟩
          rw [heq] at hnone
          cases hnone

/-- C10 witness: the characterization applied to a concrete run with an
undecodable body, whose response is the 400. -/
theorem create_data_status_characterization_witness :
    (create_data envAll ⟨"./"⟩ ("w10", "w10") [0xFF] "ts" ⟨[]⟩).outcome =
      .response ⟨400, ""⟩ ∧
    (⟨400, ""⟩ : HttpResp) = ⟨400, ""⟩ := by
  have h := create_data_status_characterization envAll ⟨"./"⟩ "w10" "w10"
    [0xFF] "ts" ⟨[]⟩ ⟨400, ""⟩ (by decide)
  exact ⟨by decide, h.1 (by decide)⟩
